import Mathlib

/-
Verification of the SID ubridge command pipeline and worker/observer
controller against its specification.

The definitions below are a shallow embedding of the C code in
src/include/kv-store.h (the ubridge implementation).  C strings are
modelled as `List Char` that never contains the NUL character; the NUL
terminator is implicit at the end of the list.  Machine integers are
modelled as `Nat`/`Int`; wraparound is made explicit (`% 2 ^ 64`,
`% 65536`) exactly where the C code truncates.  Functions that in C
communicate through pointers return the updated record instead.
-/

set_option autoImplicit false

namespace SID

/-! ## Constants (ubridge.c defines and enumerations) -/

def UBRIDGE_PROTOCOL : Nat := 1

def WORKER_IDLE_TIMEOUT_USEC : Nat := 5000000

def INTERNAL_COMMS_CMD_RUNNING : Nat := 1

def INTERNAL_COMMS_CMD_IDLE : Nat := 2

def COMMAND_STATUS_MASK_OVERALL : Nat := 1

def COMMAND_STATUS_SUCCESS : Nat := 0

def COMMAND_STATUS_FAILURE : Nat := 1

/-- command_t enumeration: `__CMD_START = 0`. -/
def __CMD_START : Nat := 0

def CMD_UNKNOWN : Nat := 0

def CMD_REPLY : Nat := 1

def CMD_VERSION : Nat := 2

def CMD_IDENTIFY : Nat := 3

def CMD_CHECKPOINT : Nat := 4

/-- command_t enumeration: `__CMD_END` is the value after `CMD_CHECKPOINT`. -/
def __CMD_END : Nat := 5

/-! cmd_ident_phase_t enumeration values. -/

def __CMD_IDENT_PHASE_START : Nat := 0

def CMD_IDENT_PHASE_SCAN_POST : Nat := 5

def __CMD_IDENT_PHASE_END : Nat := 5

def CMD_IDENT_PHASE_TRIGGER_ACTION_CURRENT : Nat := 6

def CMD_IDENT_PHASE_TRIGGER_ACTION_NEXT : Nat := 7

/-- errno value used by `_parse_cmd_nullstr_udev_env` (returns `-EINVAL`). -/
def EINVAL : Int := 22

/-- Signal number sent by `_on_idle_task_timeout_event` via `kill`. -/
def SIGTERM : Nat := 15

/-! ## Modelled libc functions used by the parsing code -/

/-- C `isspace` in the default locale (used by `atoi`/`strtoull`). -/
def isspaceC (c : Char) : Bool :=
  c = ' ' ∨ c = '\t' ∨ c = '\n' ∨ c = '\x0b' ∨ c = '\x0c' ∨ c = '\r'

/-- Leading decimal digits accumulated left to right; stops at the first
non-digit, like the digit loop of `atoi`. -/
def decDigitsAux : Nat → List Char → Nat
  | acc, [] => acc
  | acc, c :: rest =>
    if c.isDigit then decDigitsAux (10 * acc + (c.toNat - 48)) rest else acc

/-- C `atoi`: optional whitespace, optional sign, decimal digits.
Overflow is undefined behaviour in C and is not modelled (the inputs in
this code are device major/minor numbers). -/
def atoi (nptr : List Char) : Int :=
  match nptr.dropWhile isspaceC with
  | '-' :: rest => -((decDigitsAux 0 rest : Nat) : Int)
  | '+' :: rest => ((decDigitsAux 0 rest : Nat) : Int)
  | s => ((decDigitsAux 0 s : Nat) : Int)

/-- Value of a character as a digit, as accepted by `strtoull`. -/
def digitValue (c : Char) : Option Nat :=
  if '0' ≤ c ∧ c ≤ '9' then some (c.toNat - 48)
  else if 'a' ≤ c ∧ c ≤ 'z' then some (c.toNat - 97 + 10)
  else if 'A' ≤ c ∧ c ≤ 'Z' then some (c.toNat - 65 + 10)
  else none

/-- Digit-accumulation loop of `strtoull`: consume digits valid for
`base`, stopping at the first invalid character. -/
def strtoullDigitsAux (base : Nat) : Nat → List Char → Nat
  | acc, [] => acc
  | acc, c :: rest =>
    match digitValue c with
    | some v => if v < base then strtoullDigitsAux base (base * acc + v) rest else acc
    | none => acc

def ULLONG_MAX : Nat := 2 ^ 64 - 1

/-- C `strtoull(nptr, NULL, base)`: optional whitespace, optional sign,
digits of the given base; `ULLONG_MAX` on overflow; invalid base gives 0
with `EINVAL`.  Base-0 auto-detection and the `0x` prefix of base 16 are
not modelled: the only call site in this code passes the length of a
nonempty prefix of "SEQNUM" as the base, so the base is between 1 and 6. -/
def strtoull (nptr : List Char) (base : Nat) : Nat :=
  if base < 2 ∨ 36 < base then 0
  else
    match nptr.dropWhile isspaceC with
    | '-' :: rest => (2 ^ 64 - min (strtoullDigitsAux base 0 rest) ULLONG_MAX) % 2 ^ 64
    | '+' :: rest => min (strtoullDigitsAux base 0 rest) ULLONG_MAX
    | s => min (strtoullDigitsAux base 0 s) ULLONG_MAX

/-- C `strncmp(a, b, n)` on NUL-free lists standing for C strings whose
terminating NUL sits just past the end of the list.  Comparison stops at
`n` characters, at a difference, or at a NUL on either side. -/
def strncmp : List Char → List Char → Nat → Int
  | _, _, 0 => 0
  | [], [], _ + 1 => 0
  | [], d :: _, _ + 1 => -((d.toNat : Nat) : Int)
  | c :: _, [], _ + 1 => ((c.toNat : Nat) : Int)
  | c :: a, d :: b, n + 1 =>
    if c = d then (if c = '\x00' then 0 else strncmp a b n)
    else ((c.toNat : Nat) : Int) - ((d.toNat : Nat) : Int)

/-- C `strchr(key, '=')` recast as a split: `some (k, v)` when the string
contains an `'='`, where `k` is the part before the first `'='` and `v`
the part after it; `none` when there is no `'='`. -/
def splitAtEq : List Char → Option (List Char × List Char)
  | [] => none
  | c :: rest =>
    if c = '=' then some ([], rest)
    else (splitAtEq rest).map (fun p => (c :: p.1, p.2))

/-- C `memchr(str, 0, len)` recast as a split of the raw (NUL-carrying)
payload: `some (entry, rest)` when a NUL is present, where `entry` is the
part before the first NUL and `rest` everything after it. -/
def splitAtNul : List Char → Option (List Char × List Char)
  | [] => none
  | c :: rest =>
    if c = '\x00' then some ([], rest)
    else (splitAtNul rest).map (fun p => (c :: p.1, p.2))

/-! ## Device records and payload decoding -/

/-- Modelled from the spec: `udev_action_t` is declared in types.h, which
is not among the provided sources.  The spec maps the strings
add, remove, change, move, online, offline, bind, unbind to enum values;
anything else decodes to the unknown action (the zero value a
`zalloc`-ed record starts from). -/
inductive udev_action_t where
  | UDEV_ACTION_UNKNOWN
  | UDEV_ACTION_ADD
  | UDEV_ACTION_REMOVE
  | UDEV_ACTION_CHANGE
  | UDEV_ACTION_MOVE
  | UDEV_ACTION_ONLINE
  | UDEV_ACTION_OFFLINE
  | UDEV_ACTION_BIND
  | UDEV_ACTION_UNBIND
  deriving DecidableEq, Repr

/-- Modelled from the spec: `util_get_udev_action_from_string` lives in
util.c, which is not among the provided sources; the spec describes it as
a string-to-enum table over add, remove, change, move, online, offline,
bind, unbind. -/
def util_get_udev_action_from_string (s : List Char) : udev_action_t :=
  if s = "add".toList then .UDEV_ACTION_ADD
  else if s = "remove".toList then .UDEV_ACTION_REMOVE
  else if s = "change".toList then .UDEV_ACTION_CHANGE
  else if s = "move".toList then .UDEV_ACTION_MOVE
  else if s = "online".toList then .UDEV_ACTION_ONLINE
  else if s = "offline".toList then .UDEV_ACTION_OFFLINE
  else if s = "bind".toList then .UDEV_ACTION_BIND
  else if s = "unbind".toList then .UDEV_ACTION_UNBIND
  else .UDEV_ACTION_UNKNOWN

/-- struct device.  `raw_udev_env` carries the raw NUL-delimited payload
bytes; its list length plays the role of `raw_udev_env_len`.  The
`custom` pointer is never touched by the code under study and is
omitted. -/
structure Device where
  action : udev_action_t
  major : Int
  minor : Int
  name : Option (List Char)
  devtype : Option (List Char)
  seqnum : Nat
  synth_uuid : Option (List Char)
  raw_udev_env : List Char
  deriving DecidableEq, Repr

/-- A `zalloc`-ed `struct device` before any payload is attached. -/
def zeroDevice : Device :=
  { action := .UDEV_ACTION_UNKNOWN
    major := 0
    minor := 0
    name := none
    devtype := none
    seqnum := 0
    synth_uuid := none
    raw_udev_env := [] }

/-- `_device_add_field(cmd_res, dev, key)`: `key` is one NUL-terminated
`KEY=VALUE` entry.  Returns the C result together with the (possibly
updated) device record; the C code updates `dev` in place.  Note that

  - the guard is `!(value = strchr(key, '=')) || !*(value++)`: after the
    assignment `value` points *at* the `'='`, and `value++` yields that
    pre-increment pointer, so the dereference reads the `'='` strchr
    just found — never NUL.  The second clause is therefore always
    false: only a missing `'='` returns -1, and an entry with an empty
    value is accepted.  After the guard `value` points just past the
    `'='`, which is the second component of `splitAtEq`;
  - `key_len` (`value - key - 1`) is the number of characters before
    the `'='`;
  - each comparison is `strncmp(key, "...", key_len)`, i.e. only the
    first `key_len` characters are compared;
  - in the SEQNUM branch the source passes `key_len` — not 10 — as the
    numeric base of `strtoull`. -/
def _device_add_field (dev : Device) (key : List Char) : Int × Device :=
  match splitAtEq key with
  | none => (-1, dev)
  | some (keyPart, value) =>
    let key_len := keyPart.length
    if strncmp key "ACTION".toList key_len = 0 then
      (0, { dev with action := util_get_udev_action_from_string value })
    else if strncmp key "DEVNAME".toList key_len = 0 then
      (0, { dev with name := some value })
    else if strncmp key "DEVTYPE".toList key_len = 0 then
      (0, { dev with devtype := some value })
    else if strncmp key "MAJOR".toList key_len = 0 then
      (0, { dev with major := atoi value })
    else if strncmp key "MINOR".toList key_len = 0 then
      (0, { dev with minor := atoi value })
    else if strncmp key "SEQNUM".toList key_len = 0 then
      (0, { dev with seqnum := strtoull value key_len })
    else if strncmp key "SYNTH_UUID".toList key_len = 0 then
      (0, { dev with synth_uuid := some value })
    else (0, dev)

theorem splitAtNul_rest_length_lt (env entry rest : List Char)
    (h : splitAtNul env = some (entry, rest)) : rest.length < env.length := by
  induction env generalizing entry rest with
  | nil => simp [splitAtNul] at h
  | cons c cs ih =>
    by_cases hc : c = '\x00'
    · simp [splitAtNul, hc] at h
      simp [← h.2]
    · simp only [splitAtNul, if_neg hc, Option.map_eq_some'] at h
      obtain ⟨p, hp, he⟩ := h
      cases he
      have := ih p.1 p.2 (by simpa using hp)
      simpa using Nat.lt_succ_of_lt this

/-- The `while (i < cmd->dev.raw_udev_env_len)` loop of
`_parse_cmd_nullstr_udev_env`: repeatedly locate the next NUL via
`memchr`, hand the entry to `_device_add_field`, and advance past the
NUL.  A missing NUL or a failing `_device_add_field` aborts with
`-EINVAL`. -/
def parseLoop (dev : Device) (env : List Char) : Int × Device :=
  if env = [] then (0, dev)
  else
    match hs : splitAtNul env with
    | none => (-EINVAL, dev)
    | some (entry, rest) =>
      let rd := _device_add_field dev entry
      if rd.1 < 0 then (-EINVAL, rd.2)
      else parseLoop rd.2 rest
  termination_by env.length
  decreasing_by exact splitAtNul_rest_length_lt env entry rest hs

/-- `_parse_cmd_nullstr_udev_env(cmd_res, cmd)`: scans
`cmd->dev.raw_udev_env`. -/
def _parse_cmd_nullstr_udev_env (dev : Device) : Int × Device :=
  parseLoop dev dev.raw_udev_env

/-- `_init_device(cmd_res)`: parse the udev environment; on a negative
parse result log and return -1, otherwise 0. -/
def _init_device (dev : Device) : Int × Device :=
  let pr := _parse_cmd_nullstr_udev_env dev
  if pr.1 < 0 then (-1, pr.2) else (0, pr.2)

example : atoi "8".toList = 8 := by decide
example : atoi "0".toList = 0 := by decide
example : strtoull "42".toList 6 = 26 := by decide
example : strtoull "42".toList 10 = 42 := by decide
example : util_get_udev_action_from_string "add".toList = .UDEV_ACTION_ADD := by decide

/-! ## Command records, dispatch tables and the command handler -/

/-- struct raw_command_header `{u8 protocol, u8 cmd_number, u64 status}`.
The trailing flexible `data[0]` payload is carried separately. -/
structure raw_command_header where
  protocol : Nat
  cmd_number : Nat
  status : Nat
  deriving DecidableEq, Repr

/-- struct command.  The event source and the result buffer handle are
loop plumbing; of the result buffer only the response header content
matters to the properties below and it is produced by `_cmd_handler`
directly. -/
structure Command where
  protocol : Nat
  type : Nat
  status : Nat
  dev : Device
  deriving DecidableEq, Repr

/-- struct command_reg, parameterised by the signature of its `execute`
member (the identify-phase table and the top-level command table hold
functions observed at different types in this embedding: phase handlers
neither mutate the command nor log phase names). -/
structure command_reg (α : Type) where
  name : String
  execute : α

def _cmd_execute_identify_ident (_cmd : Command) : Int := 0

def _cmd_execute_identify_scan_pre (_cmd : Command) : Int := 0

def _cmd_execute_identify_scan_core_current (_cmd : Command) : Int := 0

def _cmd_execute_identify_scan_core_next_basic (_cmd : Command) : Int := 0

def _cmd_execute_identify_scan_core_next_extended (_cmd : Command) : Int := 0

def _cmd_execute_identify_scan_post (_cmd : Command) : Int := 0

def _cmd_ident_phase_regs : List (command_reg (Command → Int)) :=
  [⟨"ident", _cmd_execute_identify_ident⟩,
   ⟨"scan-pre", _cmd_execute_identify_scan_pre⟩,
   ⟨"scan-core-current", _cmd_execute_identify_scan_core_current⟩,
   ⟨"scan-core-next-basic", _cmd_execute_identify_scan_core_next_basic⟩,
   ⟨"scan-core-next-extended", _cmd_execute_identify_scan_core_next_extended⟩,
   ⟨"scan-post", _cmd_execute_identify_scan_post⟩]

/-- The `for (phase = __CMD_IDENT_PHASE_START; phase <= __CMD_IDENT_PHASE_END; ...)`
loop of `_cmd_execute_identify`: each iteration logs
"Executing <name> phase." and runs the phase; a negative phase result is
returned at once.  The returned list is the sequence of phase names
logged (and hence the phases invoked, in order); `r0` is the value `r`
holds when the loop is entered. -/
def runPhases (cmd : Command) (r0 : Int) :
    List (command_reg (Command → Int)) → Int × List String
  | [] => (r0, [])
  | reg :: rest =>
    let r := reg.execute cmd
    if r < 0 then (r, [reg.name])
    else
      let next := runPhases cmd r rest
      (next.1, reg.name :: next.2)

/-- `_cmd_execute_identify(cmd_res)`.  The first line of the source reads

  `if ((r = _init_device(cmd_res) < 0)) return r;`

so — C operator precedence — `r` is assigned the *comparison*
`_init_device(cmd_res) < 0` (0 or 1), not the call's return value.  The
result triple is (returned int, command after `_init_device`'s update of
`cmd->dev`, names of identify phases executed in order). -/
def _cmd_execute_identify (cmd : Command) : Int × Command × List String :=
  let ir := _init_device cmd.dev
  let cmd' := { cmd with dev := ir.2 }
  let r : Int := if ir.1 < 0 then 1 else 0
  if r ≠ 0 then (r, cmd', [])
  else
    let pr := runPhases cmd' r _cmd_ident_phase_regs
    (pr.1, cmd', pr.2)

def _cmd_execute_unknown (cmd : Command) : Int × Command × List String :=
  (0, cmd, [])

def _cmd_execute_reply (cmd : Command) : Int × Command × List String :=
  (0, cmd, [])

/-- `_cmd_execute_version` appends the compiled version triple
(`SID_VERSION_{MAJOR,MINOR,RELEASE}` from configure.h, which is not among
the provided sources) to the result buffer and returns 0.  None of the
properties below inspect that payload, so only the return value and the
unchanged command state are modelled. -/
def _cmd_execute_version (cmd : Command) : Int × Command × List String :=
  (0, cmd, [])

def _cmd_execute_checkpoint (cmd : Command) : Int × Command × List String :=
  (0, cmd, [])

def _command_regs : List (command_reg (Command → Int × Command × List String)) :=
  [⟨"unknown", _cmd_execute_unknown⟩,
   ⟨"reply", _cmd_execute_reply⟩,
   ⟨"version", _cmd_execute_version⟩,
   ⟨"identify", _cmd_execute_identify⟩,
   ⟨"checkpoint", _cmd_execute_checkpoint⟩]

/-- `_cmd_handler(es, data)`.  The zero-initialised `response_header` is
added to the vector-shaped result buffer by reference, so the bytes
eventually written by `buffer_write` carry the header's final field
values; the final header is modelled directly.  `_command_regs` is
indexed by `cmd->type`, which the connection handler has already
sanitised into range, so the `getD` default is never reached.  The
result is (returned int, response header as written, command state after
execution). -/
def _cmd_handler (cmd : Command) : Int × raw_command_header × Command :=
  let response_header : raw_command_header := ⟨0, 0, 0⟩
  if cmd.protocol ≤ UBRIDGE_PROTOCOL then
    let response_header := { response_header with protocol := cmd.protocol }
    let e := (_command_regs.getD cmd.type ⟨"unknown", _cmd_execute_unknown⟩).execute cmd
    let response_header :=
      if e.1 < 0 then
        { response_header with status := response_header.status ||| COMMAND_STATUS_FAILURE }
      else response_header
    (e.1, response_header, e.2.1)
  else
    let response_header :=
      { response_header with status := response_header.status ||| COMMAND_STATUS_FAILURE }
    ((-1 : Int), response_header, cmd)

/-- The command-number sanitisation of `_on_worker_conn_event`: map every
out-of-range command number to `CMD_UNKNOWN`. -/
def sanitize_cmd_number (cmd_number : Nat) : Nat :=
  if cmd_number ≤ __CMD_START ∨ __CMD_END ≤ cmd_number then CMD_UNKNOWN else cmd_number

/-- `_init_command(res, kickstart_data, data)`: the command record built
from a received frame.  `cmd->status` is a `uint16_t` assigned from the
`uint64_t` header status, hence the truncation; `cmd->dev` starts
`zalloc`-ed with the raw payload bytes copied in. -/
def _init_command (hdr : raw_command_header) (payload : List Char) : Command :=
  { protocol := hdr.protocol
    type := hdr.cmd_number
    status := hdr.status % 65536
    dev := { zeroDevice with raw_udev_env := payload } }

/-- The per-frame work of `_on_worker_conn_event` once a complete frame
sits in the buffer, composed with `_init_command` and the deferred
`_cmd_handler` run: sanitise the command number in the received header,
form the command resource identifier `"<pid>/<command name>"`
(`snprintf(id, ..., "%d/%s", getpid(), _command_regs[cmd_number].name)`;
the 31-byte truncation can never trigger for these names), register the
command and let its handler produce the response. -/
def worker_process_request (pid : Nat) (hdr : raw_command_header)
    (payload : List Char) : String × (Int × raw_command_header × Command) :=
  let n := sanitize_cmd_number hdr.cmd_number
  let id := toString pid ++ "/" ++ (_command_regs.getD n ⟨"unknown", _cmd_execute_unknown⟩).name
  let cmd := _init_command { hdr with cmd_number := n } payload
  (id, _cmd_handler cmd)

/-! ## Observer state machine -/

inductive worker_state_t where
  | WORKER_IDLE
  | WORKER_INIT
  | WORKER_RUNNING
  | WORKER_FINI
  deriving DecidableEq, Repr

/-- struct observer.  `idle_timeout_es` models the armed idle-timeout
time event source as its absolute CLOCK_MONOTONIC expiry in usec (`none`
when no timer is armed); the comms/child event sources are loop
plumbing. -/
structure Observer where
  worker_pid : Nat
  worker_state : worker_state_t
  idle_timeout_es : Option Nat
  deriving DecidableEq, Repr

/-- `_on_observer_comms_event(es, fd, revents, data)` after a successful
`comms_unix_recv`: `buf0` is the received control byte, `now_usec` the
value `util_get_now_usec(CLOCK_MONOTONIC)` would return.  Returns the C
result and the updated observer. -/
def _on_observer_comms_event (observer : Observer) (buf0 : Nat) (now_usec : Nat) :
    Int × Observer :=
  if buf0 = INTERNAL_COMMS_CMD_RUNNING then
    (0, { observer with worker_state := .WORKER_RUNNING })
  else if buf0 = INTERNAL_COMMS_CMD_IDLE then
    let timeout_usec := now_usec + WORKER_IDLE_TIMEOUT_USEC
    (0, { observer with idle_timeout_es := some timeout_usec,
                        worker_state := .WORKER_IDLE })
  else (0, observer)

/-- `_on_idle_task_timeout_event(es, usec, data)`: the idle timeout
fired.  Returns the C result, the updated observer, and the
(signal, pid) pair passed to `kill`. -/
def _on_idle_task_timeout_event (observer : Observer) :
    Int × Observer × (Nat × Nat) :=
  (0, { observer with worker_state := .WORKER_FINI }, (SIGTERM, observer.worker_pid))

/-! ## Specification-side characterisations

These definitions phrase conditions in the spec's vocabulary, to be
compared against the code-side definitions above. -/

/-- A payload entry is malformed in the sense characterising
`_device_add_field`'s failure: it contains no `'='`.  (An empty value
after the `'='` is *not* malformed: the source's `!*(value++)`
dereferences the pre-increment pointer, i.e. the `'='` itself, which is
never NUL.) -/
def entry_malformed (e : List Char) : Bool :=
  !(e.contains '=')

/-- A raw payload is malformed in the sense characterising
`_parse_cmd_nullstr_udev_env`'s `-EINVAL` result: walking the
NUL-delimited entries, either a remainder with no NUL terminator is
reached, or some entry contains no `'='`. -/
def env_malformed (env : List Char) : Bool :=
  if env = [] then false
  else
    match hs : splitAtNul env with
    | none => true
    | some (entry, rest) => entry_malformed entry || env_malformed rest
  termination_by env.length
  decreasing_by exact splitAtNul_rest_length_lt env entry rest hs

/-! ## Helper lemmas -/

theorem char_toNat_inj {c d : Char} (h : c.toNat = d.toNat) : c = d := by
  rw [← Char.ofNat_toNat c, ← Char.ofNat_toNat d, h]

theorem splitAtEq_append (k v : List Char) (hk : '=' ∉ k) :
    splitAtEq (k ++ '=' :: v) = some (k, v) := by
  induction k with
  | nil => simp [splitAtEq]
  | cons c cs ih =>
    have hc : c ≠ '=' := fun h => hk (h ▸ List.mem_cons_self c cs)
    have ih' := ih (fun h => hk (List.mem_cons_of_mem c h))
    simp [splitAtEq, hc, ih']

theorem splitAtEq_none_iff (e : List Char) :
    splitAtEq e = none ↔ e.contains '=' = false := by
  induction e with
  | nil => simp [splitAtEq]
  | cons c cs ih =>
    by_cases hc : c = '='
    · subst hc
      simp [splitAtEq, List.contains_cons]
    · have hbeq : ('=' == c) = false := by
        simp [beq_iff_eq]
        exact fun h => hc h.symm
      simp only [splitAtEq, if_neg hc, List.contains_cons, hbeq, Bool.false_or]
      cases hs : splitAtEq cs with
      | none => simpa [hs] using ih
      | some p => simpa [hs] using ih

theorem strncmp_append_eq_zero_iff (k cand r : List Char) (hk : '\x00' ∉ k) :
    strncmp (k ++ r) cand k.length = 0 ↔ k.isPrefixOf cand = true := by
  induction k generalizing cand with
  | nil => simp [strncmp, List.isPrefixOf]
  | cons c cs ih =>
    have hc : c ≠ '\x00' := fun h => hk (h ▸ List.mem_cons_self c cs)
    have hcs : '\x00' ∉ cs := fun h => hk (List.mem_cons_of_mem c h)
    cases cand with
    | nil =>
      simp only [List.cons_append, List.length_cons, strncmp, List.isPrefixOf]
      constructor
      · intro h
        exfalso
        apply hc
        apply char_toNat_inj
        have : c.toNat = 0 := by exact_mod_cast h
        simpa [Char.toNat] using this
      · intro h
        exact absurd h (by simp)
    | cons d cand' =>
      by_cases hcd : c = d
      · subst hcd
        have hstep : strncmp ((c :: cs) ++ r) (c :: cand') (c :: cs).length =
            strncmp (cs ++ r) cand' cs.length := by
          simp [strncmp, hc, List.cons_append, List.length_cons]
        rw [hstep]
        simp only [List.isPrefixOf, beq_self_eq_true, Bool.true_and]
        exact ih cand' hcs
      · have hbeq : (c == d) = false := by simpa using hcd
        simp only [List.cons_append, List.length_cons, strncmp, if_neg hcd,
          List.isPrefixOf, hbeq, Bool.false_and]
        constructor
        · intro h
          exfalso
          apply hcd
          apply char_toNat_inj
          have : (c.toNat : Int) = (d.toNat : Int) := by omega
          exact_mod_cast this
        · intro h
          exact absurd h (by simp)

theorem add_field_fail_unchanged (dev : Device) (e : List Char)
    (h : (_device_add_field dev e).1 < 0) : (_device_add_field dev e).2 = dev := by
  unfold _device_add_field at h ⊢
  cases hs : splitAtEq e with
  | none => simp [hs]
  | some p =>
    obtain ⟨k, v⟩ := p
    simp only [hs] at h ⊢
    split_ifs at h <;> simp_all

theorem add_field_neg_iff (dev : Device) (e : List Char) :
    (_device_add_field dev e).1 < 0 ↔ entry_malformed e = true := by
  cases hs : splitAtEq e with
  | none =>
    have hmem : '=' ∉ e := by
      intro hmem
      have h1 : e.contains '=' = true := by simpa using hmem
      rw [(splitAtEq_none_iff e).mp hs] at h1
      exact Bool.noConfusion h1
    have h2 : _device_add_field dev e = (-1, dev) := by
      unfold _device_add_field
      simp [hs]
    have h3 : entry_malformed e = true := by
      unfold entry_malformed
      simp [hmem]
    simp [h2, h3]
  | some p =>
    obtain ⟨k, v⟩ := p
    have hmem : '=' ∈ e := by
      by_contra hmem
      have h1 : e.contains '=' = false := by simpa using hmem
      rw [(splitAtEq_none_iff e).mpr h1] at hs
      exact Option.noConfusion hs
    have h2 : (_device_add_field dev e).1 = 0 := by
      unfold _device_add_field
      simp only [hs]
      split_ifs <;> rfl
    have h3 : entry_malformed e = false := by
      unfold entry_malformed
      simp [hmem]
    simp [h2, h3]

theorem parseLoop_eq (dev : Device) (env : List Char) : parseLoop dev env =
    if env = [] then (0, dev)
    else
      match splitAtNul env with
      | none => (-EINVAL, dev)
      | some (entry, rest) =>
        if (_device_add_field dev entry).1 < 0 then (-EINVAL, (_device_add_field dev entry).2)
        else parseLoop (_device_add_field dev entry).2 rest := by
  rw [parseLoop]
  by_cases he : env = []
  · simp [he]
  · simp only [if_neg he]
    cases hs : splitAtNul env with
    | none => rfl
    | some p => rfl

theorem env_malformed_eq (env : List Char) : env_malformed env =
    (if env = [] then false
     else
       match splitAtNul env with
       | none => true
       | some (entry, rest) => entry_malformed entry || env_malformed rest) := by
  rw [env_malformed]
  by_cases he : env = []
  · simp [he]
  · simp only [if_neg he]
    cases hs : splitAtNul env with
    | none => rfl
    | some p => rfl

theorem parseLoop_einval_aux :
    ∀ n env (dev : Device), env.length ≤ n →
      ((parseLoop dev env).1 = -EINVAL ↔ env_malformed env = true) := by
  intro n
  induction n with
  | zero =>
    intro env dev h
    have he : env = [] := by
      cases env with
      | nil => rfl
      | cons c cs => simp at h
    rw [parseLoop_eq, env_malformed_eq]
    simp [he, EINVAL]
  | succ n ih =>
    intro env dev h
    rw [parseLoop_eq, env_malformed_eq]
    by_cases he : env = []
    · simp [he, EINVAL]
    · simp only [if_neg he]
      cases hs : splitAtNul env with
      | none => simp
      | some p =>
        obtain ⟨entry, rest⟩ := p
        have hlt : rest.length < env.length := splitAtNul_rest_length_lt env entry rest hs
        by_cases hf : (_device_add_field dev entry).1 < 0
        · have hm : entry_malformed entry = true := (add_field_neg_iff dev entry).mp hf
          simp [hf, hm]
        · have hm : entry_malformed entry = false := by
            cases hmm : entry_malformed entry with
            | false => rfl
            | true => exact absurd ((add_field_neg_iff dev entry).mpr hmm) hf
          simp only [if_neg hf, hm, Bool.false_or]
          exact ih rest (_device_add_field dev entry).2 (by omega)

theorem parseLoop_einval_iff (dev : Device) (env : List Char) :
    (parseLoop dev env).1 = -EINVAL ↔ env_malformed env = true :=
  parseLoop_einval_aux env.length env dev le_rfl

/-! ## Claims -/

/-- Claim C1.  The claim states that when the payload fails to decode
(`_init_device` negative), `_cmd_execute_identify` propagates that
negative value and the response carries the OVERALL failure bit.  The
code instead contains the parenthesisation slip
`if ((r = _init_device(cmd_res) < 0))`, so on the payload "FOO\x00"
(an entry without '='): `_init_device` returns -1, yet
`_cmd_execute_identify` returns 1 (positive), no phase is executed, and
the OVERALL status bit of the response stays clear. -/
theorem C1_identify_init_failure_not_propagated :
    (_init_device (_init_command ⟨1, CMD_IDENTIFY, 42⟩ ("FOO\x00".toList)).dev).1 = -1 ∧
    (_cmd_execute_identify (_init_command ⟨1, CMD_IDENTIFY, 42⟩ ("FOO\x00".toList))).1 = 1 ∧
    ¬ ((_cmd_execute_identify (_init_command ⟨1, CMD_IDENTIFY, 42⟩ ("FOO\x00".toList))).1 < 0) ∧
    (_cmd_execute_identify (_init_command ⟨1, CMD_IDENTIFY, 42⟩ ("FOO\x00".toList))).2.2 = [] ∧
    (_cmd_handler (_init_command ⟨1, CMD_IDENTIFY, 42⟩ ("FOO\x00".toList))).2.1.status &&&
      COMMAND_STATUS_MASK_OVERALL = COMMAND_STATUS_SUCCESS := by
  have hinit :
      _init_device (_init_command ⟨1, CMD_IDENTIFY, 42⟩ ("FOO\x00".toList)).dev =
        (-1, { zeroDevice with raw_udev_env := "FOO\x00".toList }) := by
    simp +decide [_init_device, _parse_cmd_nullstr_udev_env, _init_command, parseLoop_eq,
      splitAtNul, _device_add_field, splitAtEq, EINVAL, zeroDevice]
  have hident :
      _cmd_execute_identify (_init_command ⟨1, CMD_IDENTIFY, 42⟩ ("FOO\x00".toList)) =
        (1, _init_command ⟨1, CMD_IDENTIFY, 42⟩ ("FOO\x00".toList), []) := by
    unfold _cmd_execute_identify
    rw [hinit]
    simp [_init_command, zeroDevice]
  refine ⟨by rw [hinit], by rw [hident], by rw [hident]; decide, by rw [hident], ?_⟩
  have hproto : (_init_command ⟨1, CMD_IDENTIFY, 42⟩ ("FOO\x00".toList)).protocol ≤
      UBRIDGE_PROTOCOL := by decide
  have hty : (_init_command ⟨1, CMD_IDENTIFY, 42⟩ ("FOO\x00".toList)).type = CMD_IDENTIFY := by
    decide
  have hreg : _command_regs.getD CMD_IDENTIFY ⟨"unknown", _cmd_execute_unknown⟩ =
      ⟨"identify", _cmd_execute_identify⟩ := by rfl
  unfold _cmd_handler
  rw [if_pos hproto, hty, hreg]
  dsimp only
  rw [hident]
  decide

/-- Claim C2.  The claim states that SEQNUM values decode as base-10
unsigned 64-bit integers, so the payload
"ACTION=add\x00MAJOR=8\x00MINOR=0\x00SEQNUM=42\x00" should yield
seqnum = 42.  The SEQNUM branch of `_device_add_field` passes `key_len`
(the length of "SEQNUM", i.e. 6) as the base argument of `strtoull`, so
the payload decodes to action = ADD, major = 8, minor = 0 — but
seqnum = 26 ("42" read in base 6), not the base-10 value 42 (which
`strtoull` with base 10 would give, as the last conjunct shows). -/
theorem C2_seqnum_decoded_in_base_key_len :
    _parse_cmd_nullstr_udev_env
        { zeroDevice with
            raw_udev_env := "ACTION=add\x00MAJOR=8\x00MINOR=0\x00SEQNUM=42\x00".toList } =
      (0, { zeroDevice with
              raw_udev_env := "ACTION=add\x00MAJOR=8\x00MINOR=0\x00SEQNUM=42\x00".toList,
              action := .UDEV_ACTION_ADD, major := 8, minor := 0, seqnum := 26 }) ∧
    (26 : Nat) ≠ 42 ∧
    strtoull ("42".toList) 10 = 42 := by
  refine ⟨?_, by decide, by decide⟩
  simp +decide [_parse_cmd_nullstr_udev_env, parseLoop_eq, splitAtNul, _device_add_field,
    splitAtEq, strncmp, atoi, strtoull, decDigitsAux, strtoullDigitsAux, digitValue, isspaceC,
    util_get_udev_action_from_string, EINVAL, zeroDevice]

/-- Claim C3.  The claim states that the `cmd_number` field of the
response header equals reply (1).  `_cmd_handler` zero-initialises the
response header and never assigns `cmd_number` (contrary to the struct
field's own "OUT: CMD_RESPONSE" comment), so for a successfully parsed
and answered version request the response header carries
cmd_number = 0 (CMD_UNKNOWN), not CMD_REPLY = 1. -/
theorem C3_response_cmd_number_left_zero :
    (_cmd_handler (_init_command ⟨1, CMD_VERSION, 0⟩ [])).2.1.cmd_number = CMD_UNKNOWN ∧
    CMD_UNKNOWN ≠ CMD_REPLY ∧
    (_cmd_handler (_init_command ⟨1, CMD_VERSION, 0⟩ [])).1 = 0 ∧
    (_cmd_handler (_init_command ⟨1, CMD_VERSION, 0⟩ [])).2.1.status &&&
      COMMAND_STATUS_MASK_OVERALL = COMMAND_STATUS_SUCCESS := by
  refine ⟨by decide, by decide, by decide, by decide⟩

/-- Claim C4, counterexample.  The claim asserts a clear OVERALL status
bit for *every* received frame whose command number is outside
{1, 2, 3, 4}; but for a frame with protocol 2 and command number 99 the
command is not executed and the response carries the failure bit. -/
theorem C4_high_protocol_counterexample :
    ((99 : Nat) ∉ [CMD_REPLY, CMD_VERSION, CMD_IDENTIFY, CMD_CHECKPOINT]) ∧
    (worker_process_request 7 ⟨2, 99, 0⟩ []).2.2.1.status &&& COMMAND_STATUS_MASK_OVERALL =
      COMMAND_STATUS_FAILURE ∧
    COMMAND_STATUS_FAILURE ≠ COMMAND_STATUS_SUCCESS := by
  refine ⟨by decide, by decide, by decide⟩

/-- Claim C4 (amended).  For every received request frame whose
cmd_number is outside {1, 2, 3, 4}, the command number is normalised to
unknown (0) before dispatch, the command is registered and logged under
the identifier "<pid>/unknown", its execution is a no-op returning 0,
and — provided the request protocol is at most UBRIDGE_PROTOCOL (1), so
that the command is executed at all — the handler returns 0 and the
response has status bit 0 clear (success). -/
theorem C4_unknown_command_normalised (pid : Nat) (hdr : raw_command_header)
    (payload : List Char)
    (h : hdr.cmd_number ∉ [CMD_REPLY, CMD_VERSION, CMD_IDENTIFY, CMD_CHECKPOINT]) :
    sanitize_cmd_number hdr.cmd_number = CMD_UNKNOWN ∧
    (worker_process_request pid hdr payload).1 = toString pid ++ "/unknown" ∧
    (∀ cmd : Command, _cmd_execute_unknown cmd = (0, cmd, [])) ∧
    (hdr.protocol ≤ UBRIDGE_PROTOCOL →
      (worker_process_request pid hdr payload).2.1 = 0 ∧
      (worker_process_request pid hdr payload).2.2.1.status &&& COMMAND_STATUS_MASK_OVERALL =
        COMMAND_STATUS_SUCCESS) := by
  have hn : hdr.cmd_number ≤ __CMD_START ∨ __CMD_END ≤ hdr.cmd_number := by
    simp [CMD_REPLY, CMD_VERSION, CMD_IDENTIFY, CMD_CHECKPOINT] at h
    unfold __CMD_START __CMD_END
    omega
  have hs : sanitize_cmd_number hdr.cmd_number = CMD_UNKNOWN := by
    unfold sanitize_cmd_number
    exact if_pos hn
  refine ⟨hs, ?_, fun cmd => rfl, ?_⟩
  · unfold worker_process_request
    rw [hs]
    show toString pid ++ "/" ++ "unknown" = toString pid ++ "/unknown"
    rw [String.append_assoc]
    rfl
  · intro hp
    unfold worker_process_request
    rw [hs]
    unfold _cmd_handler _init_command
    dsimp only
    rw [if_pos hp]
    refine ⟨rfl, ?_⟩
    show (0 : Nat) &&& COMMAND_STATUS_MASK_OVERALL = COMMAND_STATUS_SUCCESS
    decide

/-- Claim C4, witness: a frame with protocol 1 and command number 99. -/
theorem C4_unknown_command_normalised_witness :
    ((99 : Nat) ∉ [CMD_REPLY, CMD_VERSION, CMD_IDENTIFY, CMD_CHECKPOINT]) ∧
    (sanitize_cmd_number 99 = CMD_UNKNOWN ∧
     (worker_process_request 7 ⟨1, 99, 5⟩ []).1 = toString 7 ++ "/unknown" ∧
     (∀ cmd : Command, _cmd_execute_unknown cmd = (0, cmd, [])) ∧
     ((1 : Nat) ≤ UBRIDGE_PROTOCOL →
       (worker_process_request 7 ⟨1, 99, 5⟩ []).2.1 = 0 ∧
       (worker_process_request 7 ⟨1, 99, 5⟩ []).2.2.1.status &&& COMMAND_STATUS_MASK_OVERALL =
         COMMAND_STATUS_SUCCESS)) :=
  ⟨by decide, C4_unknown_command_normalised 7 ⟨1, 99, 5⟩ [] (by decide)⟩

/-- Claim C5.  For every command handled by `_cmd_handler` (with the
command number already normalised into the dispatch table's range), the
OVERALL status bit of the response header is set iff the request
protocol exceeds UBRIDGE_PROTOCOL (1) or the dispatched execute function
returns a negative value; and when the protocol is at most 1, the
command-table entry indexed by the command number is executed: the
handler returns its result and its updated command state. -/
theorem C5_overall_bit_iff (cmd : Command) (h : cmd.type < _command_regs.length) :
    ((_cmd_handler cmd).2.1.status &&& COMMAND_STATUS_MASK_OVERALL = COMMAND_STATUS_FAILURE ↔
      (UBRIDGE_PROTOCOL < cmd.protocol ∨
        ((_command_regs.getD cmd.type ⟨"unknown", _cmd_execute_unknown⟩).execute cmd).1 < 0)) ∧
    (cmd.protocol ≤ UBRIDGE_PROTOCOL →
      (_cmd_handler cmd).1 =
        ((_command_regs.getD cmd.type ⟨"unknown", _cmd_execute_unknown⟩).execute cmd).1 ∧
      (_cmd_handler cmd).2.2 =
        ((_command_regs.getD cmd.type ⟨"unknown", _cmd_execute_unknown⟩).execute cmd).2.1) := by
  have hb1 : ((0 : Nat) ||| COMMAND_STATUS_FAILURE) &&& COMMAND_STATUS_MASK_OVERALL =
      COMMAND_STATUS_FAILURE := by decide
  have hb0 : ¬ (((0 : Nat)) &&& COMMAND_STATUS_MASK_OVERALL = COMMAND_STATUS_FAILURE) := by
    decide
  by_cases hp : cmd.protocol ≤ UBRIDGE_PROTOCOL
  · by_cases hneg :
        ((_command_regs.getD cmd.type ⟨"unknown", _cmd_execute_unknown⟩).execute cmd).1 < 0
    · have hout : _cmd_handler cmd =
          (((_command_regs.getD cmd.type ⟨"unknown", _cmd_execute_unknown⟩).execute cmd).1,
           ⟨cmd.protocol, 0, 0 ||| COMMAND_STATUS_FAILURE⟩,
           ((_command_regs.getD cmd.type ⟨"unknown", _cmd_execute_unknown⟩).execute cmd).2.1) := by
        unfold _cmd_handler
        rw [if_pos hp]
        dsimp only
        rw [if_pos hneg]
      rw [hout]
      exact ⟨iff_of_true hb1 (Or.inr hneg), fun _ => ⟨rfl, rfl⟩⟩
    · have hout : _cmd_handler cmd =
          (((_command_regs.getD cmd.type ⟨"unknown", _cmd_execute_unknown⟩).execute cmd).1,
           ⟨cmd.protocol, 0, 0⟩,
           ((_command_regs.getD cmd.type ⟨"unknown", _cmd_execute_unknown⟩).execute cmd).2.1) := by
        unfold _cmd_handler
        rw [if_pos hp]
        dsimp only
        rw [if_neg hneg]
      rw [hout]
      exact ⟨iff_of_false hb0
        (fun hor => hor.elim (fun hlt => (not_lt.mpr hp) hlt) hneg),
        fun _ => ⟨rfl, rfl⟩⟩
  · have hout : _cmd_handler cmd =
        ((-1 : Int), ⟨0, 0, 0 ||| COMMAND_STATUS_FAILURE⟩, cmd) := by
      unfold _cmd_handler
      rw [if_neg hp]
    rw [hout]
    exact ⟨iff_of_true hb1 (Or.inl (not_le.mp hp)), fun hcon => absurd hcon hp⟩

/-- Claim C5, witness: a checkpoint command at protocol 1. -/
theorem C5_overall_bit_iff_witness :
    (_init_command ⟨1, CMD_CHECKPOINT, 0⟩ []).type < _command_regs.length ∧
    (((_cmd_handler (_init_command ⟨1, CMD_CHECKPOINT, 0⟩ [])).2.1.status &&&
        COMMAND_STATUS_MASK_OVERALL = COMMAND_STATUS_FAILURE ↔
      (UBRIDGE_PROTOCOL < (_init_command ⟨1, CMD_CHECKPOINT, 0⟩ []).protocol ∨
        ((_command_regs.getD (_init_command ⟨1, CMD_CHECKPOINT, 0⟩ []).type
            ⟨"unknown", _cmd_execute_unknown⟩).execute
          (_init_command ⟨1, CMD_CHECKPOINT, 0⟩ [])).1 < 0)) ∧
     ((_init_command ⟨1, CMD_CHECKPOINT, 0⟩ []).protocol ≤ UBRIDGE_PROTOCOL →
       (_cmd_handler (_init_command ⟨1, CMD_CHECKPOINT, 0⟩ [])).1 =
         ((_command_regs.getD (_init_command ⟨1, CMD_CHECKPOINT, 0⟩ []).type
             ⟨"unknown", _cmd_execute_unknown⟩).execute
           (_init_command ⟨1, CMD_CHECKPOINT, 0⟩ [])).1 ∧
       (_cmd_handler (_init_command ⟨1, CMD_CHECKPOINT, 0⟩ [])).2.2 =
         ((_command_regs.getD (_init_command ⟨1, CMD_CHECKPOINT, 0⟩ []).type
             ⟨"unknown", _cmd_execute_unknown⟩).execute
           (_init_command ⟨1, CMD_CHECKPOINT, 0⟩ [])).2.1)) :=
  ⟨by decide, C5_overall_bit_iff (_init_command ⟨1, CMD_CHECKPOINT, 0⟩ []) (by decide)⟩

/-- Claim C6.  For every identify command whose device decoding
succeeds, exactly the six phases ident, scan-pre, scan-core-current,
scan-core-next-basic, scan-core-next-extended, scan-post are invoked in
this order (so in particular the trace equals the registered phase table
and every invoked phase index lies strictly below the trigger-action
range, i.e. the two trigger-action phases are never invoked by
identify); and in the phase loop a negative return from any phase
short-circuits the remaining phases and is returned. -/
theorem C6_identify_phase_sequence (cmd : Command)
    (h : (_init_device cmd.dev).1 = 0) :
    (_cmd_execute_identify cmd).2.2 =
      ["ident", "scan-pre", "scan-core-current", "scan-core-next-basic",
       "scan-core-next-extended", "scan-post"] ∧
    (_cmd_execute_identify cmd).2.2 = _cmd_ident_phase_regs.map (fun reg => reg.name) ∧
    (∀ i ∈ List.range (_cmd_execute_identify cmd).2.2.length,
       i < CMD_IDENT_PHASE_TRIGGER_ACTION_CURRENT) ∧
    (∀ (regs1 regs2 : List (command_reg (Command → Int)))
       (reg : command_reg (Command → Int)) (c : Command) (r0 : Int),
       (∀ q ∈ regs1, 0 ≤ q.execute c) → reg.execute c < 0 →
       runPhases c r0 (regs1 ++ reg :: regs2) =
         (reg.execute c, regs1.map (fun q => q.name) ++ [reg.name])) := by
  have htr : (_cmd_execute_identify cmd).2.2 =
      ["ident", "scan-pre", "scan-core-current", "scan-core-next-basic",
       "scan-core-next-extended", "scan-post"] := by
    unfold _cmd_execute_identify
    dsimp only
    rw [h]
    simp [runPhases, _cmd_ident_phase_regs, _cmd_execute_identify_ident,
      _cmd_execute_identify_scan_pre, _cmd_execute_identify_scan_core_current,
      _cmd_execute_identify_scan_core_next_basic,
      _cmd_execute_identify_scan_core_next_extended, _cmd_execute_identify_scan_post]
  have hsc : ∀ (regs1 regs2 : List (command_reg (Command → Int)))
      (reg : command_reg (Command → Int)) (c : Command) (r0 : Int),
      (∀ q ∈ regs1, 0 ≤ q.execute c) → reg.execute c < 0 →
      runPhases c r0 (regs1 ++ reg :: regs2) =
        (reg.execute c, regs1.map (fun q => q.name) ++ [reg.name]) := by
    intro regs1
    induction regs1 with
    | nil =>
      intro regs2 reg c r0 _ hneg
      simp [runPhases, hneg]
    | cons q qs ih =>
      intro regs2 reg c r0 hpos hneg
      have hq : ¬ (q.execute c < 0) := not_lt.mpr (hpos q (List.mem_cons_self q qs))
      have hrest := ih regs2 reg c (q.execute c)
        (fun p hp => hpos p (List.mem_cons_of_mem q hp)) hneg
      simp only [List.cons_append, runPhases, if_neg hq, List.append_eq, List.map_cons]
      rw [hrest]
  refine ⟨htr, ?_, ?_, hsc⟩
  · rw [htr]
    rfl
  · rw [htr]
    decide

/-- Claim C6, witness: an identify command whose payload "A=\x00" is a
single entry with an empty value — it decodes successfully (the code
does not reject empty values) and all six phases run. -/
theorem C6_identify_phase_sequence_witness :
    (_init_device (_init_command ⟨1, CMD_IDENTIFY, 0⟩ ("A=\x00".toList)).dev).1 = 0 ∧
    (_cmd_execute_identify (_init_command ⟨1, CMD_IDENTIFY, 0⟩ ("A=\x00".toList))).2.2 =
      ["ident", "scan-pre", "scan-core-current", "scan-core-next-basic",
       "scan-core-next-extended", "scan-post"] := by
  have h : (_init_device (_init_command ⟨1, CMD_IDENTIFY, 0⟩ ("A=\x00".toList)).dev).1 = 0 := by
    simp +decide [_init_device, _parse_cmd_nullstr_udev_env, _init_command, parseLoop_eq,
      splitAtNul, _device_add_field, splitAtEq, strncmp, util_get_udev_action_from_string,
      EINVAL, zeroDevice]
  exact ⟨h, (C6_identify_phase_sequence (_init_command ⟨1, CMD_IDENTIFY, 0⟩ ("A=\x00".toList))
    h).1⟩

/-- Claim C7, counterexample.  The claim states that receiving control
byte 1 (RUNNING) cancels any armed idle-timeout timer; but
`_on_observer_comms_event` leaves the timer event source untouched on
byte 1: an observer with an armed timer still has it armed afterwards. -/
theorem C7_running_does_not_cancel_timer :
    _on_observer_comms_event ⟨1234, .WORKER_IDLE, some 777⟩ INTERNAL_COMMS_CMD_RUNNING 0 =
      (0, ⟨1234, .WORKER_RUNNING, some 777⟩) ∧
    (some 777 : Option Nat) ≠ none := by
  refine ⟨by decide, by decide⟩

/-- Claim C7 (amended).  Receiving control byte 1 (RUNNING) sets
worker_state to RUNNING and leaves the idle-timeout event source
unchanged (the timer is instead cancelled earlier, when the accepted
connection is assigned to the worker); receiving control byte 2 (IDLE)
sets worker_state to IDLE and arms an idle-timeout timer at
now + 5 seconds monotonic; when that timer fires, worker_state becomes
FINI and SIGTERM is sent to the worker PID. -/
theorem C7_observer_state_machine (observer : Observer) (buf0 now_usec : Nat) :
    (buf0 = INTERNAL_COMMS_CMD_RUNNING →
      _on_observer_comms_event observer buf0 now_usec =
        (0, { observer with worker_state := .WORKER_RUNNING })) ∧
    (buf0 = INTERNAL_COMMS_CMD_IDLE →
      _on_observer_comms_event observer buf0 now_usec =
        (0, { observer with worker_state := .WORKER_IDLE,
                            idle_timeout_es := some (now_usec + WORKER_IDLE_TIMEOUT_USEC) })) ∧
    _on_idle_task_timeout_event observer =
      (0, { observer with worker_state := .WORKER_FINI }, (SIGTERM, observer.worker_pid)) := by
  refine ⟨?_, ?_, rfl⟩
  · intro hb
    simp [_on_observer_comms_event, hb, INTERNAL_COMMS_CMD_RUNNING]
  · intro hb
    simp [_on_observer_comms_event, hb, INTERNAL_COMMS_CMD_RUNNING, INTERNAL_COMMS_CMD_IDLE]

/-- Claim C7, witness: an observer receiving the IDLE byte arms the
5-second timer. -/
theorem C7_observer_state_machine_witness :
    _on_observer_comms_event ⟨42, .WORKER_RUNNING, none⟩ INTERNAL_COMMS_CMD_IDLE 100 =
      (0, ⟨42, .WORKER_IDLE, some (100 + WORKER_IDLE_TIMEOUT_USEC)⟩) := by
  exact (C7_observer_state_machine ⟨42, .WORKER_RUNNING, none⟩ INTERNAL_COMMS_CMD_IDLE 100).2.1
    rfl

/-- Claim C8, counterexample.  The claim states that entries whose key is
not one of the seven recognised keys are ignored; but the comparisons use
`strncmp(key, candidate, key_len)`, so the key "ACT" — not a recognised
key — matches the ACTION branch and the entry "ACT=add" changes the
device's action field. -/
theorem C8_prefix_key_not_ignored :
    ("ACT".toList ∉ ["ACTION".toList, "DEVNAME".toList, "DEVTYPE".toList, "MAJOR".toList,
       "MINOR".toList, "SEQNUM".toList, "SYNTH_UUID".toList]) ∧
    (_device_add_field zeroDevice ("ACT=add".toList)).1 = 0 ∧
    (_device_add_field zeroDevice ("ACT=add".toList)).2.action = .UDEV_ACTION_ADD ∧
    zeroDevice.action ≠ .UDEV_ACTION_ADD := by
  refine ⟨by decide, by decide, by decide, by decide⟩

/-- Claim C8 (amended).  For every payload entry KEY=VALUE whose key
part is not a *prefix* of any of ACTION, DEVNAME, DEVTYPE, MAJOR,
MINOR, SEQNUM, SYNTH_UUID, the entry is ignored: `_device_add_field`
returns 0 and leaves every field of the device record unchanged.  (The
`strncmp(key, candidate, key_len)` comparisons accept any key that is a
prefix of a recognised key, which is the most the counterexample forces
us to exclude; VALUE may be empty.) -/
theorem C8_unrecognised_key_ignored (dev : Device) (k v : List Char)
    (hnul : '\x00' ∉ k) (heq : '=' ∉ k)
    (hpre : ∀ cand ∈ ["ACTION".toList, "DEVNAME".toList, "DEVTYPE".toList, "MAJOR".toList,
        "MINOR".toList, "SEQNUM".toList, "SYNTH_UUID".toList], k.isPrefixOf cand = false) :
    _device_add_field dev (k ++ '=' :: v) = (0, dev) := by
  have hgen : ∀ cand ∈ ["ACTION".toList, "DEVNAME".toList, "DEVTYPE".toList, "MAJOR".toList,
      "MINOR".toList, "SEQNUM".toList, "SYNTH_UUID".toList],
      ¬ (strncmp (k ++ '=' :: v) cand k.length = 0) := by
    intro cand hcand hcontra
    have h1 := (strncmp_append_eq_zero_iff k cand ('=' :: v) hnul).mp hcontra
    rw [hpre cand hcand] at h1
    exact Bool.noConfusion h1
  unfold _device_add_field
  rw [splitAtEq_append k v heq]
  dsimp only
  rw [if_neg (hgen _ (by simp)), if_neg (hgen _ (by simp)),
    if_neg (hgen _ (by simp)), if_neg (hgen _ (by simp)), if_neg (hgen _ (by simp)),
    if_neg (hgen _ (by simp)), if_neg (hgen _ (by simp))]

/-- Claim C8, witness: the entry "FOO=" (with an empty value) is
ignored. -/
theorem C8_unrecognised_key_ignored_witness :
    ('\x00' ∉ "FOO".toList) ∧
    _device_add_field zeroDevice ("FOO".toList ++ '=' :: []) = (0, zeroDevice) :=
  ⟨by decide, C8_unrecognised_key_ignored zeroDevice "FOO".toList []
    (by decide) (by decide) (by decide)⟩

/-- Claim C9.  For every identify payload entry of the form KEY= (an
'=' present but an empty value), `_device_add_field` returns 0 and the
entry is accepted rather than rejected as malformed (the source's
`!*(value++)` dereferences the pre-increment pointer — the '=' strchr
found, never NUL — so the guard's second clause never fires); in
particular the payload "KEY=\x00" parses to 0.  And
`_parse_cmd_nullstr_udev_env` returns `-EINVAL` exactly when, walking
the NUL-delimited entries, some entry contains no '=' character or the
remaining payload contains no NUL terminator; `_device_add_field` fails
(negatively) exactly on an entry without '='. -/
theorem C9_empty_value_accepted (dev : Device) (k : List Char) (heq : '=' ∉ k) :
    (_device_add_field dev (k ++ ['='])).1 = 0 ∧
    (_parse_cmd_nullstr_udev_env { zeroDevice with raw_udev_env := "KEY=\x00".toList }).1 =
      0 ∧
    (∀ dev2 : Device,
      ((_parse_cmd_nullstr_udev_env dev2).1 = -EINVAL ↔
        env_malformed dev2.raw_udev_env = true)) ∧
    (∀ (dev2 : Device) (e : List Char),
      ((_device_add_field dev2 e).1 < 0 ↔ entry_malformed e = true)) := by
  refine ⟨?_, ?_, fun dev2 => parseLoop_einval_iff dev2 dev2.raw_udev_env,
    fun dev2 e => add_field_neg_iff dev2 e⟩
  · unfold _device_add_field
    rw [splitAtEq_append k [] heq]
    dsimp only
    split_ifs <;> rfl
  · simp +decide [_parse_cmd_nullstr_udev_env, parseLoop_eq, splitAtNul, _device_add_field,
      splitAtEq, strncmp, EINVAL, zeroDevice]

/-- Claim C9, witness: the key "KEY" with an empty value. -/
theorem C9_empty_value_accepted_witness :
    ('=' ∉ "KEY".toList) ∧
    ((_device_add_field zeroDevice ("KEY".toList ++ ['='])).1 = 0 ∧
     (_parse_cmd_nullstr_udev_env { zeroDevice with raw_udev_env := "KEY=\x00".toList }).1 =
       0 ∧
     (∀ dev2 : Device,
       ((_parse_cmd_nullstr_udev_env dev2).1 = -EINVAL ↔
         env_malformed dev2.raw_udev_env = true)) ∧
     (∀ (dev2 : Device) (e : List Char),
       ((_device_add_field dev2 e).1 < 0 ↔ entry_malformed e = true))) :=
  ⟨by decide, C9_empty_value_accepted zeroDevice "KEY".toList (by decide)⟩

/-- Claim C10.  For every observer control-channel message whose first
byte is neither 1 (RUNNING) nor 2 (IDLE), `_on_observer_comms_event`
returns 0 and leaves the observer — both its worker_state and its
idle-timeout event source — unchanged. -/
theorem C10_unknown_control_byte_ignored (observer : Observer) (buf0 now_usec : Nat)
    (h1 : buf0 ≠ INTERNAL_COMMS_CMD_RUNNING) (h2 : buf0 ≠ INTERNAL_COMMS_CMD_IDLE) :
    _on_observer_comms_event observer buf0 now_usec = (0, observer) := by
  simp [_on_observer_comms_event, h1, h2]

/-- Claim C10, witness: control byte 3 is ignored. -/
theorem C10_unknown_control_byte_ignored_witness :
    ((3 : Nat) ≠ INTERNAL_COMMS_CMD_RUNNING) ∧ ((3 : Nat) ≠ INTERNAL_COMMS_CMD_IDLE) ∧
    _on_observer_comms_event ⟨9, .WORKER_RUNNING, none⟩ 3 0 = (0, ⟨9, .WORKER_RUNNING, none⟩) :=
  ⟨by decide, by decide,
    C10_unknown_control_byte_ignored ⟨9, .WORKER_RUNNING, none⟩ 3 0 (by decide) (by decide)⟩

end SID
